import Mathlib

/-
Verification of the resilient-call retry loop of the uae-market-hub proxy.

This file is a shallow embedding of the Vercel serverless handler of the
uae-market-hub repository (the variant of the handler that contains the
retry/backoff loop), together with proofs about its retry, backoff,
timeout-timer and error-classification behaviour.

The handler body is:

* a gate on the HTTP method (OPTIONS preflight, POST-only),
* a check of the server-held API key (return 500 "API Key not configured"
  before any remote call when the key is absent),
* a `for (attempt = 0; attempt < MAX_RETRIES; attempt++)` loop where each
  iteration arms a per-attempt abort timer, issues one `fetch`, and then
  - runs `clearTimeout(timeoutId)` and returns 200 with the parsed body
    when `response.ok`,
  - on status 429 or >= 500 with `attempt < MAX_RETRIES - 1` sleeps
    `BASE_DELAY * (2 ** attempt) + Math.random() * 120` and continues,
  - otherwise falls through to a return of the upstream status with the
    upstream body text attached as `details`,
  - in the `catch` block (fetch rejection: the abort timer fired, or a
    network-level error) either sleeps the same backoff and continues, or
    on the last attempt returns 504 with the rejection message preserved;
    the catch block contains no `clearTimeout`,
* after the loop, a 504 "Maximum retries exceeded" return.

The environment (the remote endpoint) is modelled as an oracle mapping the
attempt index to the outcome of that attempt's `fetch`, and the jitter
source as a function from the attempt index to a rational number.
-/

/-- Outcome of one `fetch` call as seen by the loop body: either the
promise resolves with an HTTP response (status and body text), or it
rejects (`timedOut = true` when the rejection was caused by the abort
timer firing, `false` for a network-level failure), carrying the error
message. -/
inductive FetchOutcome where
  | resp (status : Nat) (body : String)
  | fail (timedOut : Bool) (msg : String)
  deriving DecidableEq, Repr

/-- The retry configuration of the executor.  The Vercel handler hardcodes
`MAX_RETRIES = 5`, `BASE_DELAY = 200`, jitter bound `120`
(`Math.random() * 120`) and `PER_ATTEMPT_TIMEOUT = 15000`. -/
structure RetryPolicy where
  maxAttempts : Nat
  baseDelay : ℚ
  jitterBound : ℚ
  perAttemptTimeout : ℚ
  deriving DecidableEq, Repr

/-- The retry configuration hardcoded in the Vercel handler. -/
def vercelPolicy : RetryPolicy :=
  { maxAttempts := 5, baseDelay := 200, jitterBound := 120, perAttemptTimeout := 15000 }

/-- Terminal result of the executor loop, one constructor per `return`
site of the loop and of the code placed after it:
`success b` is `res.status(200).json(result)`;
`upstreamError s d` is the return of the upstream status `s` with the
upstream body `d` attached as `details`;
`transportExhausted m` is the 504 return of the catch block on the final
attempt, preserving the rejection message `m`;
`retriesExhausted` is the generic 504 "Maximum retries exceeded" return
placed after the loop. -/
inductive CallResult where
  | success (body : String)
  | upstreamError (status : Nat) (details : String)
  | transportExhausted (msg : String)
  | retriesExhausted
  deriving DecidableEq, Repr

/-- The HTTP status the handler sends for each executor result: the
argument of `res.status(...)` at the corresponding return site. -/
def resultStatus : CallResult → Nat
  | .success _ => 200
  | .upstreamError s _ => s
  | .transportExhausted _ => 504
  | .retriesExhausted => 504

/-- Fate of one attempt's timeout timer: `cleared` when the
`clearTimeout(timeoutId)` line ran (the `fetch` promise resolved),
`fired` when the timer itself fired and aborted the call, `pending` when
the attempt ended with neither — the catch block was entered through a
network-level rejection, and the catch block contains no `clearTimeout`,
so the timer stays armed after the loop has moved on. -/
inductive TimerFate where
  | cleared
  | fired
  | pending
  deriving DecidableEq, Repr

/-- Everything observable about one run of the executor loop: the
terminal result, the number of `fetch` calls made, the list of backoff
delays actually slept (in order), and the fate of each executed attempt's
timeout timer (in order). -/
structure RunOut where
  result : CallResult
  calls : Nat
  delays : List ℚ
  timerFates : List TimerFate
  deriving DecidableEq, Repr

/-- `response.ok` of the fetch API: status in the 200..299 range. -/
def respOk (status : Nat) : Bool :=
  200 ≤ status && status < 300

/-- The retryable-status test of the loop:
`response.status === 429 || response.status >= 500`. -/
def isRetryableStatus (status : Nat) : Bool :=
  status == 429 || 500 ≤ status

/-- The backoff expression of the loop body, identical in the
status-retry branch and in the catch branch:
`BASE_DELAY * (2 ** attempt) + jitter`, where the jitter drawn for the
attempt is `Math.random() * 120`, a value in `[0, jitterBound)`. -/
def delayFormula (pol : RetryPolicy) (jitter : Nat → ℚ) (attempt : Nat) : ℚ :=
  pol.baseDelay * 2 ^ attempt + jitter attempt

/-- The attempt loop.  `a` is the attempt index and `r` the number of
iterations still permitted by the loop condition `attempt < MAX_RETRIES`,
so `a + r = maxAttempts` on every call reached from `execute`.  `r = 0`
is the loop condition failing: control falls out of the loop to the
generic 504 "Maximum retries exceeded" return, here `retriesExhausted`.
In the `resp` arm the timer is recorded `cleared` because the
`clearTimeout(timeoutId)` line runs right after the `fetch` promise
resolves; in the `fail` arm control jumped to the catch block, which has
no `clearTimeout`, so the timer is `fired` when the rejection was the
abort itself and `pending` otherwise.  The retryable-status branch only
continues when `a < maxAttempts - 1`; on the last attempt it falls
through to the return of the upstream status and body, exactly as the
source does. -/
def attemptLoop (pol : RetryPolicy) (oracle : Nat → FetchOutcome) (jitter : Nat → ℚ) :
    Nat → Nat → RunOut
  | _, 0 => ⟨.retriesExhausted, 0, [], []⟩
  | a, r + 1 =>
    match oracle a with
    | .resp status body =>
      if respOk status then
        ⟨.success body, 1, [], [.cleared]⟩
      else if isRetryableStatus status then
        if a < pol.maxAttempts - 1 then
          let rest := attemptLoop pol oracle jitter (a + 1) r
          ⟨rest.result, rest.calls + 1, delayFormula pol jitter a :: rest.delays,
            .cleared :: rest.timerFates⟩
        else
          ⟨.upstreamError status body, 1, [], [.cleared]⟩
      else
        ⟨.upstreamError status body, 1, [], [.cleared]⟩
    | .fail timedOut msg =>
      if a < pol.maxAttempts - 1 then
        let rest := attemptLoop pol oracle jitter (a + 1) r
        ⟨rest.result, rest.calls + 1, delayFormula pol jitter a :: rest.delays,
          (if timedOut then TimerFate.fired else TimerFate.pending) :: rest.timerFates⟩
      else
        ⟨.transportExhausted msg, 1, [],
          [if timedOut then TimerFate.fired else TimerFate.pending]⟩

/-- One invocation of the executor: run the attempt loop from attempt 0
with the loop bound `maxAttempts`. -/
def execute (pol : RetryPolicy) (oracle : Nat → FetchOutcome) (jitter : Nat → ℚ) : RunOut :=
  attemptLoop pol oracle jitter 0 pol.maxAttempts

/-- The pieces of the inbound request the handler gates on before the
loop is reached. -/
structure HandlerEnv where
  httpMethod : String
  apiKey : Option String
  deriving DecidableEq, Repr

/-- Result of the whole handler: one constructor per return site placed
before the loop, plus the executor's result. -/
inductive HandlerResult where
  | corsOk
  | methodNotAllowed
  | configError
  | executorResult (r : CallResult)
  deriving DecidableEq, Repr

/-- The HTTP status of each handler result, the `res.status(...)`
argument at the corresponding return site. -/
def handlerStatus : HandlerResult → Nat
  | .corsOk => 200
  | .methodNotAllowed => 405
  | .configError => 500
  | .executorResult r => resultStatus r

/-- The Vercel handler: OPTIONS preflight, POST-only gate, API-key check
(return 500 "API Key not configured" before any remote call when the key
is absent), then the retry loop.  Returns the handler result together
with the number of remote calls made. -/
def handler (env : HandlerEnv) (oracle : Nat → FetchOutcome) (jitter : Nat → ℚ) :
    HandlerResult × Nat :=
  if env.httpMethod = "OPTIONS" then (.corsOk, 0)
  else if env.httpMethod ≠ "POST" then (.methodNotAllowed, 0)
  else
    match env.apiKey with
    | none => (.configError, 0)
    | some _ =>
      let out := execute vercelPolicy oracle jitter
      (.executorResult out.result, out.calls)

/-- Each run of the loop makes at most as many `fetch` calls as the loop
bound permits. -/
theorem attemptLoop_calls_le (pol : RetryPolicy) (oracle : Nat → FetchOutcome)
    (jitter : Nat → ℚ) : ∀ r a, (attemptLoop pol oracle jitter a r).calls ≤ r := by
  intro r
  induction r with
  | zero => intro a; simp [attemptLoop]
  | succ n ih =>
    intro a
    simp only [attemptLoop]
    cases ho : oracle a with
    | resp status body =>
      cases h1 : respOk status with
      | true => simp [h1]
      | false =>
        cases h2 : isRetryableStatus status with
        | false => simp [h1, h2]
        | true =>
          by_cases h3 : a < pol.maxAttempts - 1
          · have := ih (a + 1)
            simp [h1, h2, h3]
            omega
          · simp [h1, h2, h3]
    | fail timedOut msg =>
      by_cases h3 : a < pol.maxAttempts - 1
      · have := ih (a + 1)
        simp [h3]
        omega
      · simp [h3]

/-- As long as the loop condition admits at least one iteration, at least
one `fetch` call is made. -/
theorem attemptLoop_calls_pos (pol : RetryPolicy) (oracle : Nat → FetchOutcome)
    (jitter : Nat → ℚ) : ∀ r a, 1 ≤ r → 1 ≤ (attemptLoop pol oracle jitter a r).calls := by
  intro r
  induction r with
  | zero => intro a h; omega
  | succ n ih =>
    intro a _
    simp only [attemptLoop]
    cases ho : oracle a with
    | resp status body =>
      cases h1 : respOk status with
      | true => simp [h1]
      | false =>
        cases h2 : isRetryableStatus status with
        | false => simp [h1, h2]
        | true =>
          by_cases h3 : a < pol.maxAttempts - 1
          · simp [h1, h2, h3]
          · simp [h1, h2, h3]
    | fail timedOut msg =>
      by_cases h3 : a < pol.maxAttempts - 1
      · simp [h3]
      · simp [h3]

/-- Started on any attempt index consistent with the loop bound
(`a + r = maxAttempts`) and with at least one iteration permitted, the
loop never reaches the fall-through result: on the last iteration every
branch of the body returns. -/
theorem attemptLoop_ne_exhausted (pol : RetryPolicy) (oracle : Nat → FetchOutcome)
    (jitter : Nat → ℚ) : ∀ r a, 1 ≤ r → a + r = pol.maxAttempts →
      (attemptLoop pol oracle jitter a r).result ≠ .retriesExhausted := by
  intro r
  induction r with
  | zero => intro a h; omega
  | succ n ih =>
    intro a _ hinv
    simp only [attemptLoop]
    cases ho : oracle a with
    | resp status body =>
      cases h1 : respOk status with
      | true => simp [h1]
      | false =>
        cases h2 : isRetryableStatus status with
        | false => simp [h1, h2]
        | true =>
          by_cases h3 : a < pol.maxAttempts - 1
          · have hn : 1 ≤ n := by omega
            have := ih (a + 1) hn (by omega)
            simp [h1, h2, h3]
            exact this
          · simp [h1, h2, h3]
    | fail timedOut msg =>
      by_cases h3 : a < pol.maxAttempts - 1
      · have hn : 1 ≤ n := by omega
        have := ih (a + 1) hn (by omega)
        simp [h3]
        exact this
      · simp [h3]

/-- When every `fetch` of the run rejects, the loop ends in the catch
block of the last attempt and preserves that attempt's error message. -/
theorem attemptLoop_all_fail (pol : RetryPolicy) (oracle : Nat → FetchOutcome)
    (jitter : Nat → ℚ) (tmo : Nat → Bool) (m : Nat → String)
    (hfail : ∀ i, oracle i = .fail (tmo i) (m i)) :
    ∀ r a, 1 ≤ r → a + r = pol.maxAttempts →
      (attemptLoop pol oracle jitter a r).result =
        .transportExhausted (m (pol.maxAttempts - 1)) := by
  intro r
  induction r with
  | zero => intro a h; omega
  | succ n ih =>
    intro a _ hinv
    simp only [attemptLoop, hfail a]
    by_cases h3 : a < pol.maxAttempts - 1
    · have hn : 1 ≤ n := by omega
      have := ih (a + 1) hn (by omega)
      simp [h3]
      exact this
    · have ha : a = pol.maxAttempts - 1 := by omega
      simp [h3, ha]

/-- Every backoff delay the loop sleeps is the exponential formula at the
index of the attempt it follows: the k-th recorded delay of a run started
on attempt `a` is `baseDelay * 2 ^ (a + k) + jitter (a + k)`, in both the
status-retry branch and the catch branch. -/
theorem attemptLoop_delays_get (pol : RetryPolicy) (oracle : Nat → FetchOutcome)
    (jitter : Nat → ℚ) : ∀ r a k d,
      (attemptLoop pol oracle jitter a r).delays[k]? = some d →
        d = delayFormula pol jitter (a + k) := by
  intro r
  induction r with
  | zero => intro a k d h; simp [attemptLoop] at h
  | succ n ih =>
    intro a k d h
    simp only [attemptLoop] at h
    cases ho : oracle a with
    | resp status body =>
      rw [ho] at h
      cases h1 : respOk status with
      | true => simp [h1] at h
      | false =>
        cases h2 : isRetryableStatus status with
        | false => simp [h1, h2] at h
        | true =>
          by_cases h3 : a < pol.maxAttempts - 1
          · simp [h1, h2, h3] at h
            cases k with
            | zero =>
              simp at h
              simpa using h.symm
            | succ k' =>
              simp at h
              have e : a + 1 + k' = a + (k' + 1) := by omega
              rw [← e]
              exact ih (a + 1) k' d h
          · simp [h1, h2, h3] at h
    | fail timedOut msg =>
      rw [ho] at h
      by_cases h3 : a < pol.maxAttempts - 1
      · simp [h3] at h
        cases k with
        | zero =>
          simp at h
          simpa using h.symm
        | succ k' =>
          simp at h
          have e : a + 1 + k' = a + (k' + 1) := by omega
          rw [← e]
          exact ih (a + 1) k' d h
      · simp [h3] at h

/-- C1: evaluation of the executor at the claim's scenario — every one of
the `maxAttempts = 5` attempts receives a retryable status 500 with body
"upstream-body".  Exactly 5 remote calls are made (that part of the claim
holds), but the terminal result is NOT the generic "maximum retries
exceeded" 504 result: the retryable-status branch of the last attempt
falls through to the return of the upstream status, so the run ends with
the upstream status 500 and the upstream body attached, and the handler
reports HTTP 500, not 504. -/
theorem C1_exhaustedRetryableEval :
    (execute vercelPolicy (fun _ => .resp 500 "upstream-body") (fun _ => 0)).result =
        .upstreamError 500 "upstream-body" ∧
      (execute vercelPolicy (fun _ => .resp 500 "upstream-body") (fun _ => 0)).calls = 5 ∧
      resultStatus
          (execute vercelPolicy (fun _ => .resp 500 "upstream-body") (fun _ => 0)).result =
        500 :=
  ⟨by decide, by decide, by decide⟩

/-- C2: status classification.  On an attempt whose `fetch` resolves with
a non-success status: a 429 or a status ≥ 500 is retryable — when further
attempts remain, at least one more remote call follows; any other
non-success status is terminal immediately — the loop returns the
upstream status with the upstream body after exactly the one call of this
attempt, with no backoff slept. -/
theorem C2_statusClassification (pol : RetryPolicy) (oracle : Nat → FetchOutcome)
    (jitter : Nat → ℚ) (a r s : Nat) (b : String)
    (hinv : a + r = pol.maxAttempts) (hr : 1 ≤ r) (ho : oracle a = .resp s b)
    (hns : ¬ (200 ≤ s ∧ s < 300)) :
    ((s = 429 ∨ 500 ≤ s) → 2 ≤ r → 2 ≤ (attemptLoop pol oracle jitter a r).calls) ∧
      (s ≠ 429 → s < 500 →
        attemptLoop pol oracle jitter a r = ⟨.upstreamError s b, 1, [], [.cleared]⟩) := by
  constructor
  · intro hretry hr2
    obtain ⟨n, rfl⟩ : ∃ n, r = n + 1 := ⟨r - 1, by omega⟩
    have h1 : respOk s = false := by
      simp only [respOk, Bool.and_eq_false_iff]
      rcases hretry with h | h
      · right; simp [h]
      · right; simp; omega
    have h2 : isRetryableStatus s = true := by
      simp only [isRetryableStatus, Bool.or_eq_true]
      rcases hretry with h | h
      · left; simp [h]
      · right; simp [h]
    have h3 : a < pol.maxAttempts - 1 := by omega
    have hpos := attemptLoop_calls_pos pol oracle jitter n (a + 1) (by omega)
    simp only [attemptLoop, ho, h1, h2, h3]
    simp
    omega
  · intro h429 h500
    obtain ⟨n, rfl⟩ : ∃ n, r = n + 1 := ⟨r - 1, by omega⟩
    have h1 : respOk s = false := by
      simp only [respOk, Bool.and_eq_false_iff]
      by_cases hs : 200 ≤ s
      · right; simp; omega
      · left; simp; omega
    have h2 : isRetryableStatus s = false := by
      simp only [isRetryableStatus, Bool.or_eq_false_iff]
      constructor
      · simp [h429]
      · simp; omega
    simp only [attemptLoop, ho, h1, h2]
    simp

/-- Instance of C2 at the claim's concrete scenario: an upstream 404 with
body "not-found" on attempt 0 yields the terminal result with status 404
and the upstream body after exactly 1 remote call, no delays slept. -/
theorem C2_statusClassification_witness :
    execute vercelPolicy (fun _ => .resp 404 "not-found") (fun _ => 0) =
      ⟨.upstreamError 404 "not-found", 1, [], [.cleared]⟩ :=
  (C2_statusClassification vercelPolicy (fun _ => .resp 404 "not-found") (fun _ => 0)
      0 5 404 "not-found" (by decide) (by decide) rfl (by decide)).2
    (by decide) (by decide)

/-- C3: when every attempt's `fetch` rejects (timeout or network-level
failure), the run ends in a terminal retries-exhausted result that
preserves the message of the last attempt's transport error, and the
handler reports it as HTTP 504. -/
theorem C3_transportExhaustion (pol : RetryPolicy) (oracle : Nat → FetchOutcome)
    (jitter : Nat → ℚ) (tmo : Nat → Bool) (m : Nat → String)
    (hfail : ∀ i, oracle i = .fail (tmo i) (m i)) (h1 : 1 ≤ pol.maxAttempts) :
    (execute pol oracle jitter).result = .transportExhausted (m (pol.maxAttempts - 1)) ∧
      resultStatus (execute pol oracle jitter).result = 504 := by
  have h := attemptLoop_all_fail pol oracle jitter tmo m hfail pol.maxAttempts 0 h1 (by omega)
  refine ⟨h, ?_⟩
  rw [show (execute pol oracle jitter).result = _ from h]
  rfl

/-- Instance of C3: a timeout-abort on every attempt ends in the 504
transport-exhausted result with the rejection message preserved. -/
theorem C3_transportExhaustion_witness :
    (execute vercelPolicy (fun _ => .fail true "fetch aborted") (fun _ => 0)).result =
        .transportExhausted "fetch aborted" ∧
      resultStatus
          (execute vercelPolicy (fun _ => .fail true "fetch aborted") (fun _ => 0)).result =
        504 :=
  C3_transportExhaustion vercelPolicy (fun _ => .fail true "fetch aborted") (fun _ => 0)
    (fun _ => true) (fun _ => "fetch aborted") (fun _ => rfl) (by decide)

/-- C4: whenever the loop sleeps before attempt `i + 1`, the slept delay
is exactly `baseDelay * 2 ^ i + jitter i`, hence — the jitter being drawn
from `[0, jitterBound)` — it lies in
`[baseDelay * 2 ^ i, baseDelay * 2 ^ i + jitterBound)`.  The statement
covers every recorded delay of every run, so the same uncapped formula
governs both the status-based and the transport-failure retries. -/
theorem C4_backoffDelay (pol : RetryPolicy) (oracle : Nat → FetchOutcome)
    (jitter : Nat → ℚ) (i : Nat) (d : ℚ)
    (hj : ∀ k, 0 ≤ jitter k ∧ jitter k < pol.jitterBound)
    (hd : (execute pol oracle jitter).delays[i]? = some d) :
    d = pol.baseDelay * 2 ^ i + jitter i ∧
      pol.baseDelay * 2 ^ i ≤ d ∧ d < pol.baseDelay * 2 ^ i + pol.jitterBound := by
  have h := attemptLoop_delays_get pol oracle jitter pol.maxAttempts 0 i d hd
  rw [Nat.zero_add] at h
  rw [delayFormula] at h
  refine ⟨h, ?_, ?_⟩
  · rw [h]
    have := (hj i).1
    linarith
  · rw [h]
    have := (hj i).2
    linarith

/-- Instance of C4 at a concrete run (all attempts return 500, jitter
constantly 1): the first slept delay is 201, which matches the formula
and lies in the stated half-open interval. -/
theorem C4_backoffDelay_witness :
    (201 : ℚ) = vercelPolicy.baseDelay * 2 ^ 0 + 1 ∧
      vercelPolicy.baseDelay * 2 ^ 0 ≤ 201 ∧
      (201 : ℚ) < vercelPolicy.baseDelay * 2 ^ 0 + vercelPolicy.jitterBound :=
  C4_backoffDelay vercelPolicy (fun _ => .resp 500 "boom") (fun _ => 1) 0 201
    (fun k => ⟨by norm_num, by norm_num [vercelPolicy]⟩)
    (by norm_num [execute, attemptLoop, delayFormula, respOk, isRetryableStatus, vercelPolicy])

/-- C5: a success-range status on any attempt the loop reaches returns
`Success` with the response body verbatim, immediately: one call on this
attempt, none after it, no backoff slept, and the body is passed through
with no inspection of its structure. -/
theorem C5_successImmediate (pol : RetryPolicy) (oracle : Nat → FetchOutcome)
    (jitter : Nat → ℚ) (a r s : Nat) (b : String)
    (_hinv : a + (r + 1) = pol.maxAttempts) (ho : oracle a = .resp s b)
    (h2 : 200 ≤ s) (h3 : s < 300) :
    attemptLoop pol oracle jitter a (r + 1) = ⟨.success b, 1, [], [.cleared]⟩ := by
  have h1 : respOk s = true := by
    simp only [respOk, Bool.and_eq_true]
    constructor
    · simp; omega
    · simp; omega
  simp only [attemptLoop, ho, h1]
  simp

/-- Instance of C5: a 200 observed on attempt 2 of the 5-attempt Vercel
run returns `Success` with the body at once. -/
theorem C5_successImmediate_witness :
    attemptLoop vercelPolicy (fun _ => .resp 200 "payload") (fun _ => 0) 2 3 =
      ⟨.success "payload", 1, [], [.cleared]⟩ :=
  C5_successImmediate vercelPolicy (fun _ => .resp 200 "payload") (fun _ => 0) 2 2 200
    "payload" (by decide) rfl (by decide) (by decide)

/-- C6: a POST request with the server-held API key absent is answered
with the configuration-error result, whose HTTP status is 500, and zero
remote calls are made. -/
theorem C6_missingApiKey (env : HandlerEnv) (oracle : Nat → FetchOutcome) (jitter : Nat → ℚ)
    (hm : env.httpMethod = "POST") (hk : env.apiKey = none) :
    handler env oracle jitter = (.configError, 0) ∧
      handlerStatus HandlerResult.configError = 500 := by
  constructor
  · simp [handler, hm, hk]
  · rfl

/-- Instance of C6 at a concrete request. -/
theorem C6_missingApiKey_witness :
    handler ⟨"POST", none⟩ (fun _ => .resp 200 "ok") (fun _ => 0) = (.configError, 0) ∧
      handlerStatus HandlerResult.configError = 500 :=
  C6_missingApiKey ⟨"POST", none⟩ (fun _ => .resp 200 "ok") (fun _ => 0) rfl rfl

/-- C7: every invocation of the executor terminates with exactly one
structured result (the executor is a total function into `RunOut`, and
its result is one of the four terminal constructors — nothing escapes the
boundary unresolved), and the attempt loop is bounded: at most
`maxAttempts` remote calls are made, for every oracle and jitter
source. -/
theorem C7_boundedTermination (pol : RetryPolicy) (oracle : Nat → FetchOutcome)
    (jitter : Nat → ℚ) :
    (execute pol oracle jitter).calls ≤ pol.maxAttempts ∧
      ((∃ b, (execute pol oracle jitter).result = .success b) ∨
        (∃ s d, (execute pol oracle jitter).result = .upstreamError s d) ∨
        (∃ m, (execute pol oracle jitter).result = .transportExhausted m) ∨
        (execute pol oracle jitter).result = .retriesExhausted) := by
  constructor
  · exact attemptLoop_calls_le pol oracle jitter pol.maxAttempts 0
  · cases h : (execute pol oracle jitter).result with
    | success b => exact Or.inl ⟨b, rfl⟩
    | upstreamError s d => exact Or.inr (Or.inl ⟨s, d, rfl⟩)
    | transportExhausted m => exact Or.inr (Or.inr (Or.inl ⟨m, rfl⟩))
    | retriesExhausted => exact Or.inr (Or.inr (Or.inr rfl))

/-- C8: evaluation at the claim's failure path — every attempt's `fetch`
rejects with a network-level error (not the abort timer).  The catch
block contains no `clearTimeout`, so no attempt's timer is cleared: each
of the five executed attempts leaves its 15-second timer pending, still
armed after the loop has moved on and after the run has returned.  This
contradicts the claim that the timer is canceled on the failure/catch
path as well. -/
theorem C8_timerLeftPending :
    (execute vercelPolicy (fun _ => .fail false "ECONNRESET") (fun _ => 0)).timerFates =
        [.pending, .pending, .pending, .pending, .pending] ∧
      (execute vercelPolicy (fun _ => .fail false "ECONNRESET") (fun _ => 0)).result =
        .transportExhausted "ECONNRESET" :=
  ⟨by decide, by decide⟩

/-- C9: with zero jitter and any `baseDelay ≥ 0`, the backoff delay of
the loop is non-decreasing in the attempt index. -/
theorem C9_zeroJitterMonotone (pol : RetryPolicy) (jitter : Nat → ℚ) (i : Nat)
    (hb : 0 ≤ pol.baseDelay) (hj : ∀ k, jitter k = 0) :
    delayFormula pol jitter i ≤ delayFormula pol jitter (i + 1) := by
  simp only [delayFormula, hj, add_zero]
  have hpow : (2 : ℚ) ^ i ≤ 2 ^ (i + 1) := by
    have h2 : (1 : ℚ) ≤ 2 := by norm_num
    exact pow_le_pow_right₀ h2 (Nat.le_succ i)
  exact mul_le_mul_of_nonneg_left hpow hb

/-- Instance of C9 at the Vercel base delay with zero jitter: the delay
before attempt 2 is at least the delay before attempt 1. -/
theorem C9_zeroJitterMonotone_witness :
    delayFormula vercelPolicy (fun _ => 0) 0 ≤ delayFormula vercelPolicy (fun _ => 0) 1 :=
  C9_zeroJitterMonotone vercelPolicy (fun _ => 0) 0 (by norm_num [vercelPolicy]) (fun _ => rfl)

/-- C10: the generic "Maximum retries exceeded" return placed after the
loop is unreachable.  For every oracle and jitter source, a run with at
least one permitted attempt never produces the fall-through result: every
iteration either returns or continues, and on the final iteration every
branch returns. -/
theorem C10_postLoopUnreachable (pol : RetryPolicy) (oracle : Nat → FetchOutcome)
    (jitter : Nat → ℚ) (h1 : 1 ≤ pol.maxAttempts) :
    (execute pol oracle jitter).result ≠ .retriesExhausted :=
  attemptLoop_ne_exhausted pol oracle jitter pol.maxAttempts 0 h1 (by omega)

/-- Instance of C10 at the Vercel policy and a concrete oracle. -/
theorem C10_postLoopUnreachable_witness :
    1 ≤ vercelPolicy.maxAttempts ∧
      (execute vercelPolicy (fun _ => .resp 200 "ok") (fun _ => 0)).result ≠
        CallResult.retriesExhausted :=
  ⟨by decide,
    C10_postLoopUnreachable vercelPolicy (fun _ => .resp 200 "ok") (fun _ => 0) (by decide)⟩
